import Mathlib

/-!
Verification of the Genius-loci backend (此间有灵), a Hono + Drizzle note and
chat service.  The definitions below are a shallow embedding of the request
handlers of the backend API file: pure helpers become Lean functions, the
database becomes an explicit `Store` value threaded through each handler, and
the AI gateway becomes an explicit parameter describing the upstream outcome.

Modelling conventions, stated once:
* Finite JavaScript numbers are modelled by exact rationals.  They are
  represented as unreduced fractions `Q` (integer numerator, positive
  denominator) with comparison by cross-multiplication, so that every
  arithmetic operation reduces inside the kernel and concrete runs of the
  handlers can be settled by `decide`.
* A JavaScript number is a `JsNum`: a finite `Q`, or `NaN`, `+Infinity`,
  `-Infinity` as produced by `parseFloat` and by division.  The IEEE `-0`
  distinction is not tracked (the handlers never branch on it).
* The transcendental functions of `Math` (`sin`, `cos`, `sqrt`, `atan2`,
  `PI`) have no rational values; they are abstracted as a `MathOps`
  parameter of every definition that uses them, applied exactly where the
  source applies `Math.*`.
* SQL `NULL` columns are `Option` fields; a range comparison against `NULL`
  is `false`, and a comparison whose bound is `NaN` is `false`, matching
  SQL / IEEE comparison semantics.
* Autoincrement ids and row timestamps are supplied as explicit parameters
  (`newId`, `now`); path and body parameters that the handlers parse into
  well-formed integers are taken directly as `Nat`.
* The JavaScript string builtins `trim` and `toLowerCase` are modelled by
  structurally recursive character-list functions.
-/

/-- An exact rational as an unreduced fraction.  All constructors below keep
the denominator positive; equality of model values is structural, which is
adequate because the handlers never test numbers for equality except against
the literal `0`. -/
structure Q where
  num : Int
  den : Nat
deriving DecidableEq, Repr

/-- The rational `n / 1`. -/
def qInt (n : Int) : Q := { num := n, den := 1 }

/-- Is the value zero? -/
def qIsZero (a : Q) : Bool := a.num = 0

/-- Is the value strictly positive? -/
def qPos (a : Q) : Bool := 0 < a.num

/-- Is the value strictly negative? -/
def qNegative (a : Q) : Bool := a.num < 0

/-- Negation. -/
def qNeg (a : Q) : Q := { num := -a.num, den := a.den }

/-- Addition of fractions without reduction. -/
def qAdd (a b : Q) : Q :=
  { num := a.num * (b.den : Int) + b.num * (a.den : Int), den := a.den * b.den }

/-- Subtraction. -/
def qSub (a b : Q) : Q := qAdd a (qNeg b)

/-- Multiplication. -/
def qMul (a b : Q) : Q := { num := a.num * b.num, den := a.den * b.den }

/-- Division by a nonzero fraction (the zero-denominator case is excluded by
the caller, which sends division by zero to a signed infinity); the sign is
moved to the numerator to keep the denominator positive. -/
def qDiv (a b : Q) : Q :=
  if b.num < 0 then { num := -(a.num * (b.den : Int)), den := a.den * (-b.num).toNat }
  else { num := a.num * (b.den : Int), den := a.den * b.num.toNat }

/-- Comparison by cross-multiplication (denominators are positive). -/
def qLe (a b : Q) : Bool := a.num * (b.den : Int) ≤ b.num * (a.den : Int)

/-- The closed emotion enum of the backend (`EMOTIONS` in the source). -/
def EMOTIONS : List String := ["sad", "happy", "calm", "mysterious", "angry"]

/-- A JavaScript number: finite rational, `NaN`, `+Infinity` or `-Infinity`. -/
inductive JsNum where
  | num (q : Q)
  | nan
  | inf
  | ninf
deriving DecidableEq, Repr

/-- JavaScript negation on numbers. -/
def jsNeg : JsNum → JsNum
  | .num q => .num (qNeg q)
  | .nan => .nan
  | .inf => .ninf
  | .ninf => .inf

/-- JavaScript addition: `NaN` propagates, `Infinity + -Infinity = NaN`. -/
def jsAdd : JsNum → JsNum → JsNum
  | .nan, _ => .nan
  | _, .nan => .nan
  | .inf, .ninf => .nan
  | .ninf, .inf => .nan
  | .inf, _ => .inf
  | _, .inf => .inf
  | .ninf, _ => .ninf
  | _, .ninf => .ninf
  | .num a, .num b => .num (qAdd a b)

/-- JavaScript subtraction. -/
def jsSub (a b : JsNum) : JsNum := jsAdd a (jsNeg b)

/-- JavaScript multiplication: `0 * Infinity = NaN`. -/
def jsMul : JsNum → JsNum → JsNum
  | .nan, _ => .nan
  | _, .nan => .nan
  | .num a, .num b => .num (qMul a b)
  | .num a, .inf => if qIsZero a then .nan else if qPos a then .inf else .ninf
  | .num a, .ninf => if qIsZero a then .nan else if qPos a then .ninf else .inf
  | .inf, .num b => if qIsZero b then .nan else if qPos b then .inf else .ninf
  | .ninf, .num b => if qIsZero b then .nan else if qPos b then .ninf else .inf
  | .inf, .inf => .inf
  | .inf, .ninf => .ninf
  | .ninf, .inf => .ninf
  | .ninf, .ninf => .inf

/-- JavaScript division: `x / 0` is a signed infinity (`0 / 0 = NaN`);
the `-0` denominator case is not tracked. -/
def jsDiv : JsNum → JsNum → JsNum
  | .nan, _ => .nan
  | _, .nan => .nan
  | .num a, .num b =>
      if qIsZero b then (if qIsZero a then .nan else if qPos a then .inf else .ninf)
      else .num (qDiv a b)
  | .num _, .inf => .num (qInt 0)
  | .num _, .ninf => .num (qInt 0)
  | .inf, .num b => if qNegative b then .ninf else .inf
  | .ninf, .num b => if qNegative b then .inf else .ninf
  | .inf, _ => .nan
  | .ninf, _ => .nan

/-- JavaScript `<=`: any comparison involving `NaN` is false. -/
def jsLe : JsNum → JsNum → Bool
  | .nan, _ => false
  | _, .nan => false
  | .ninf, _ => true
  | _, .inf => true
  | .inf, _ => false
  | _, .ninf => false
  | .num a, .num b => qLe a b

/-- The `Math` functions used by the source, abstracted over rationals.
`haversineDistance` and the longitude-delta computation apply them exactly
where the source applies `Math.sin`, `Math.cos`, `Math.sqrt`, `Math.atan2`
and `Math.PI`. -/
structure MathOps where
  pi : Q
  sin : Q → Q
  cos : Q → Q
  sqrt : Q → Q
  atan2 : Q → Q → Q

/-- `Math.sin` lifted to `JsNum` (`sin` of a non-finite value is `NaN`). -/
def jsSin (M : MathOps) : JsNum → JsNum
  | .num q => .num (M.sin q)
  | _ => .nan

/-- `Math.cos` lifted to `JsNum`. -/
def jsCos (M : MathOps) : JsNum → JsNum
  | .num q => .num (M.cos q)
  | _ => .nan

/-- `Math.sqrt` lifted to `JsNum` (`sqrt` of a negative number is `NaN`). -/
def jsSqrt (M : MathOps) : JsNum → JsNum
  | .num q => if qNegative q then .nan else .num (M.sqrt q)
  | .inf => .inf
  | _ => .nan

/-- `Math.atan2` lifted to `JsNum`.  In the handler both arguments are
results of `jsSqrt` on finite values, so only the finite and `NaN` cases are
reachable; non-finite arguments are mapped to `NaN`. -/
def jsAtan2 (M : MathOps) : JsNum → JsNum → JsNum
  | .num y, .num x => .num (M.atan2 y x)
  | _, _ => .nan

/-- `haversineDistance` from the source: great-circle distance in km between
two latitude/longitude points, Earth radius 6371 km. -/
def haversineDistance (M : MathOps) (lat1 lng1 lat2 lng2 : JsNum) : JsNum :=
  let R : JsNum := .num (qInt 6371)
  let deg : JsNum := .num (qInt 180)
  let two : JsNum := .num (qInt 2)
  let dLat := jsDiv (jsMul (jsSub lat2 lat1) (.num M.pi)) deg
  let dLng := jsDiv (jsMul (jsSub lng2 lng1) (.num M.pi)) deg
  let a :=
    jsAdd
      (jsMul (jsSin M (jsDiv dLat two)) (jsSin M (jsDiv dLat two)))
      (jsMul
        (jsMul (jsCos M (jsDiv (jsMul lat1 (.num M.pi)) deg))
               (jsCos M (jsDiv (jsMul lat2 (.num M.pi)) deg)))
        (jsMul (jsSin M (jsDiv dLng two)) (jsSin M (jsDiv dLng two))))
  let c := jsMul two (jsAtan2 M (jsSqrt M a) (jsSqrt M (jsSub (.num (qInt 1)) a)))
  jsMul R c

/-- Value of a digit run, most significant first. -/
def digitsVal (l : List Char) : Nat :=
  l.foldl (fun acc c => acc * 10 + (c.toNat - 48)) 0

/-- Optional leading sign of a numeral. -/
def parseSign : List Char → Bool × List Char
  | [] => (false, [])
  | c :: rest =>
      if c = Char.ofNat 45 then (true, rest)
      else if c = Char.ofNat 43 then (false, rest)
      else (false, c :: rest)

/-- JavaScript `parseFloat`, modelled on the grammar the handlers can
receive: optional sign, integer digits, optional fraction digits; the longest
valid prefix is taken, and a string with no leading numeral parses to `NaN`.
Exponents, `Infinity` literals and leading whitespace are not modelled. -/
def jsParseFloat (s : String) : JsNum :=
  let p := parseSign s.toList
  let intDigits := p.2.takeWhile Char.isDigit
  let rest := p.2.dropWhile Char.isDigit
  let fracDigits :=
    match rest with
    | c :: r => if c = Char.ofNat 46 then r.takeWhile Char.isDigit else []
    | [] => []
  if intDigits.isEmpty && fracDigits.isEmpty then .nan
  else
    let v : Q :=
      { num := (digitsVal intDigits * 10 ^ fracDigits.length + digitsVal fracDigits : Nat)
        den := 10 ^ fracDigits.length }
    .num (if p.1 then qNeg v else v)

/-- The JavaScript `trim` builtin: strip whitespace from both ends. -/
def strTrim (s : String) : String :=
  { data := ((s.data.dropWhile Char.isWhitespace).reverse.dropWhile Char.isWhitespace).reverse }

/-- The JavaScript `toLowerCase` builtin, on the ASCII range the emotion
enum lives in. -/
def strToLower (s : String) : String := { data := s.data.map Char.toLower }

/-- A row of the `notes` table.  The autoincrement `id` and the columns used
by the handlers are modelled; `latitude`/`longitude`/`locationName`/`aiSummary`
are nullable. -/
structure Note where
  id : Nat
  userId : String
  content : String
  latitude : Option Q
  longitude : Option Q
  locationName : Option String
  emotion : String
  mode : String
  isPrivate : Nat
  aiSummary : Option String
  createdAt : Nat
deriving DecidableEq, Repr

/-- A row of the `chats` table (the autoincrement primary key is omitted:
no handler reads it). -/
structure Chat where
  userId : String
  noteId : Nat
  role : String
  content : String
  createdAt : Nat
deriving DecidableEq, Repr

/-- The persistent store: the two tables shared by all handlers. -/
structure Store where
  notes : List Note
  chats : List Chat
deriving DecidableEq, Repr

/-- `ORDER BY createdAt DESC` comparison on notes. -/
def noteRecency (a b : Note) : Prop := b.createdAt ≤ a.createdAt

instance : DecidableRel noteRecency := fun a b => Nat.decLe b.createdAt a.createdAt

instance : IsTotal Note noteRecency :=
  ⟨fun a b => (Nat.le_total b.createdAt a.createdAt).imp (fun h => h) (fun h => h)⟩

instance : IsTrans Note noteRecency :=
  ⟨fun _ _ _ h h' => Nat.le_trans h' h⟩

/-- `ORDER BY createdAt` (ascending) comparison on chats. -/
def chatAsc (a b : Chat) : Prop := a.createdAt ≤ b.createdAt

instance : DecidableRel chatAsc := fun a b => Nat.decLe a.createdAt b.createdAt

instance : IsTotal Chat chatAsc := ⟨fun a b => Nat.le_total a.createdAt b.createdAt⟩

instance : IsTrans Chat chatAsc := ⟨fun _ _ _ h h' => Nat.le_trans h h'⟩

/-- SQL `gte(col, bound)` on a nullable column: `NULL` rows never match, a
`NaN` bound never matches, and infinite bounds behave as in IEEE order. -/
def sqlGe (col : Option Q) (b : JsNum) : Bool :=
  match col, b with
  | none, _ => false
  | some _, .nan => false
  | some _, .ninf => true
  | some _, .inf => false
  | some q, .num r => qLe r q

/-- SQL `lte(col, bound)` on a nullable column. -/
def sqlLe (col : Option Q) (b : JsNum) : Bool :=
  match col, b with
  | none, _ => false
  | some _, .nan => false
  | some _, .ninf => false
  | some _, .inf => true
  | some q, .num r => qLe q r

/-- Response of `GET /api/public/nearby-notes`: either the 400 validation
error or a 200 with the note list (reaching `ok` means the proximity query
against the store was executed). -/
inductive NearbyResult where
  | badRequest
  | ok (notes : List Note)
deriving DecidableEq, Repr

/-- JavaScript falsiness of an optional query-string parameter
(`undefined` and the empty string are falsy). -/
def jsFalsyStr : Option String → Bool
  | none => true
  | some s => decide (s = "")

/-- The bounding-box prefilter of the nearby query, exactly the four `where`
conditions of the source (no privacy condition among them). -/
def boxPred (userLat userLng latDelta lngDelta : JsNum) (n : Note) : Bool :=
  sqlGe n.latitude (jsSub userLat latDelta) &&
  sqlLe n.latitude (jsAdd userLat latDelta) &&
  sqlGe n.longitude (jsSub userLng lngDelta) &&
  sqlLe n.longitude (jsAdd userLng lngDelta)

/-- The exact circular filter of the nearby query: notes with a JS-falsy
latitude or longitude (`null` or `0`) are dropped, the rest are kept iff the
haversine distance to the query point is at most 1 km. -/
def preciseKeep (M : MathOps) (userLat userLng : JsNum) (n : Note) : Bool :=
  match n.latitude, n.longitude with
  | some la, some lo =>
      if qIsZero la || qIsZero lo then false
      else jsLe (haversineDistance M userLat userLng (.num la) (.num lo)) (.num (qInt 1))
  | _, _ => false

/-- The `lngDelta` computation of the source:
`0.01 / Math.cos(userLat * Math.PI / 180)`. -/
def lngDeltaOf (M : MathOps) (userLat : JsNum) : JsNum :=
  jsDiv (.num { num := 1, den := 100 })
    (jsCos M (jsDiv (jsMul userLat (.num M.pi)) (.num (qInt 180))))

/-- The database read of the nearby query: bounding-box `where` clause,
`ORDER BY createdAt DESC`, `LIMIT 100`. -/
def nearbyCandidates (M : MathOps) (store : Store) (userLat userLng : JsNum) : List Note :=
  (List.insertionSort noteRecency
    (store.notes.filter
      (boxPred userLat userLng (.num { num := 1, den := 100 }) (lngDeltaOf M userLat)))).take 100

/-- `GET /api/public/nearby-notes`: 400 when `lat` or `lng` is absent or
empty; otherwise `parseFloat` both, fetch the bounding-box candidates ordered
most recent first and limited to 100, then apply the exact 1 km filter. -/
def nearbyNotesHandler (M : MathOps) (store : Store) (latStr lngStr : Option String) :
    NearbyResult :=
  if jsFalsyStr latStr || jsFalsyStr lngStr then .badRequest
  else
    .ok ((nearbyCandidates M store (jsParseFloat (latStr.getD "")) (jsParseFloat (lngStr.getD ""))).filter
      (preciseKeep M (jsParseFloat (latStr.getD "")) (jsParseFloat (lngStr.getD ""))))

/-- JavaScript `x || dflt` on an optional string field of a JSON body:
an absent field and the empty string are falsy and yield the default. -/
def jsOrStr (o : Option String) (dflt : String) : String :=
  match o with
  | none => dflt
  | some s => if s = "" then dflt else s

/-- Body of `POST /api/notes` as the handler reads it. -/
structure CreateBody where
  content : String
  latitude : Option Q
  longitude : Option Q
  locationName : Option String
  emotion : Option String
  mode : Option String
  isPrivate : Bool
deriving DecidableEq, Repr

/-- `POST /api/notes`: insert a note for the caller, with
`emotion: body.emotion || "calm"`, `mode: body.mode || "trace"` and
`isPrivate: body.isPrivate ? 1 : 0`; returns the new store and the created
row (the 201 payload). -/
def createNote (store : Store) (userId : String) (body : CreateBody)
    (newId now : Nat) : Store × Note :=
  let n : Note :=
    { id := newId
      userId := userId
      content := body.content
      latitude := body.latitude
      longitude := body.longitude
      locationName := body.locationName
      emotion := jsOrStr body.emotion "calm"
      mode := jsOrStr body.mode "trace"
      isPrivate := if body.isPrivate then 1 else 0
      aiSummary := none
      createdAt := now }
  ({ store with notes := store.notes ++ [n] }, n)

/-- Outcome of a single-shot AI gateway call: a completed response whose
`choices[0]?.message?.content` may be absent, or a thrown error. -/
inductive AiResult where
  | ok (content : Option String)
  | err
deriving DecidableEq, Repr

/-- The background `tagEmotion` task, applied to the store it runs against:
normalize the classification answer (`trim`, `toLowerCase`, with `|| "calm"`
for an absent or empty answer), keep it only if it is in the enum, and update
the note's `emotion`; a thrown error is caught and leaves the store
untouched. -/
def tagEmotion (store : Store) (noteId : Nat) (result : AiResult) : Store :=
  match result with
  | .err => store
  | .ok content =>
      let emotionRaw :=
        match content with
        | none => "calm"
        | some s =>
            if strToLower (strTrim s) = "" then "calm" else strToLower (strTrim s)
      let emotion := if emotionRaw ∈ EMOTIONS then emotionRaw else "calm"
      { store with
        notes := store.notes.map
          (fun n => if n.id = noteId then { n with emotion := emotion } else n) }

/-- Response of `DELETE /api/notes/:id`. -/
inductive DeleteResult where
  | notFound
  | success
deriving DecidableEq, Repr

/-- `DELETE /api/notes/:id`: first delete every chat row with that `noteId`
(no ownership condition on that delete), then delete the note matching
`(id, userId)`; 404 when the second delete removed nothing. -/
def deleteNoteHandler (store : Store) (userId : String) (id : Nat) :
    DeleteResult × Store :=
  let chats1 := store.chats.filter (fun ch => decide (ch.noteId ≠ id))
  let deleted := store.notes.filter (fun n => decide (n.id = id ∧ n.userId = userId))
  let remaining := store.notes.filter (fun n => decide (¬(n.id = id ∧ n.userId = userId)))
  if deleted.isEmpty then (.notFound, { notes := remaining, chats := chats1 })
  else (.success, { notes := remaining, chats := chats1 })

/-- `GET /api/notes/:noteId/chats`: the caller's chat rows for that
`noteId`, ascending by creation time; always a 200. -/
def listChatsHandler (store : Store) (userId : String) (noteId : Nat) : List Chat :=
  List.insertionSort chatAsc
    (store.chats.filter (fun ch => decide (ch.noteId = noteId ∧ ch.userId = userId)))

/-- One element of the supplied `messages` array. -/
structure Msg where
  role : String
  content : String
deriving DecidableEq, Repr

/-- A chat row as the handlers insert it. -/
def mkChat (userId : String) (noteId : Nat) (role content : String) (now : Nat) : Chat :=
  { userId := userId, noteId := noteId, role := role, content := content, createdAt := now }

/-- The `PersistUser` phase of `POST /api/ai/chat`: when the message list is
non-empty and its last element has role `user`, append it as a chat row with
the supplied `noteId`. -/
def persistUserTurn (store : Store) (userId : String) (messages : List Msg)
    (noteId : Nat) (now : Nat) : Store :=
  match messages.getLast? with
  | some m =>
      if m.role = "user" then
        { store with chats := store.chats ++ [mkChat userId noteId "user" m.content now] }
      else store
  | none => store

/-- State of the streaming relay loop: the in-memory accumulator and the
chunks written to the caller so far, in order. -/
structure StreamState where
  fullResponse : String
  written : List String
deriving DecidableEq, Repr

/-- One iteration of the relay loop of `POST /api/ai/chat`: read
`choices[0]?.delta?.content` of the chunk (`none` when absent); a truthy
content is appended to the accumulator and written to the caller, otherwise
the chunk is skipped. -/
def relayStep (st : StreamState) (c : Option String) : StreamState :=
  match c with
  | some content =>
      if content = "" then st
      else { fullResponse := st.fullResponse ++ content, written := st.written ++ [content] }
  | none => st

/-- The relay loop of `POST /api/ai/chat`, over the delivered chunks. -/
def relayLoop (chunks : List (Option String)) : StreamState :=
  chunks.foldl relayStep { fullResponse := "", written := [] }

/-- Concatenation of a list of text chunks, in order. -/
def joinChunks : List String → String
  | [] => ""
  | s :: rest => s ++ joinChunks rest

/-- The fixed apology chunk written on a mid-stream error. -/
def apologyMessage : String := "抱歉，地灵暂时无法与你交流..."

/-- Response of `POST /api/ai/chat`: the 500 configuration error, or the
streamed body as the ordered list of chunks written to the caller. -/
inductive ChatResponse where
  | configError
  | streamed (written : List String)
deriving DecidableEq, Repr

/-- `POST /api/ai/chat`.  The upstream stream is described by the chunks it
delivers before either completing (`fails = false`) or throwing
(`fails = true`).  After the configuration check and the `PersistUser` phase,
the relay loop runs; on completion a single assistant row holding the
accumulated text is inserted when that text is non-empty; on a throw the
apology chunk is written and nothing further is persisted.  No check relates
`noteId` to the notes table. -/
def chatHandler (store : Store) (apiKeyPresent : Bool) (userId : String)
    (messages : List Msg) (noteId : Nat) (chunks : List (Option String))
    (fails : Bool) (now : Nat) : ChatResponse × Store :=
  if apiKeyPresent = false then (.configError, store)
  else
    let store1 := persistUserTurn store userId messages noteId now
    let st := relayLoop chunks
    if fails then (.streamed (st.written ++ [apologyMessage]), store1)
    else if st.fullResponse = "" then (.streamed st.written, store1)
    else
      (.streamed st.written,
        { store1 with
          chats := store1.chats ++ [mkChat userId noteId "assistant" st.fullResponse now] })

/-- Response of `POST /api/ai/summary`. -/
inductive SummaryResponse where
  | configError
  | notFound
  | aiError
  | ok (summary : String)
deriving DecidableEq, Repr

/-- `POST /api/ai/summary`: after the configuration check, fetch the note by
`(noteId, userId)` and 404 when absent — before any AI call; on an AI error
return the 500 service error with the store untouched; on success overwrite
`aiSummary` of every note with that id.  The third component records whether
the AI gateway was called. -/
def summaryHandler (store : Store) (apiKeyPresent : Bool) (userId : String)
    (noteId : Nat) (ai : AiResult) : SummaryResponse × Store × Bool :=
  if apiKeyPresent = false then (.configError, store, false)
  else
    match store.notes.filter (fun n => decide (n.id = noteId ∧ n.userId = userId)) with
    | [] => (.notFound, store, false)
    | _ :: _ =>
        match ai with
        | .err => (.aiError, store, true)
        | .ok content =>
            let summary := content.getD ""
            (.ok summary,
              { store with
                notes := store.notes.map
                  (fun n => if n.id = noteId then { n with aiSummary := some summary } else n) },
              true)

/-- A concrete instantiation of the abstracted `Math` functions, used to run
the nearby-notes handler on explicit inputs.  It agrees with the real
functions at every argument those runs reach: the runs only evaluate
`sin 0 = 0`, `sqrt 0 = 0`, `sqrt 1 = 1` and `atan2 0 x = 0` for positive `x`,
and multiply the `cos` values by zero. -/
def mathSpot : MathOps where
  pi := { num := 157, den := 50 }
  sin := fun _ => qInt 0
  cos := fun _ => qInt 1
  sqrt := fun q => if qIsZero q then qInt 0 else qInt 1
  atan2 := fun y _ => if qIsZero y then qInt 0 else qInt 1

/-- A private note stored exactly at the query point `(1, 1)`. -/
def cexNote : Note :=
  { id := 1, userId := "alice", content := "secret"
    latitude := some (qInt 1), longitude := some (qInt 1)
    locationName := none, emotion := "calm", mode := "trace"
    isPrivate := 1, aiSummary := none, createdAt := 5 }

/-- A store holding only the private note. -/
def cexStore : Store := { notes := [cexNote], chats := [] }

/-- A note owned by `alice`. -/
def noteAlice : Note :=
  { id := 1, userId := "alice", content := "mine"
    latitude := none, longitude := none, locationName := none
    emotion := "calm", mode := "trace", isPrivate := 0
    aiSummary := none, createdAt := 1 }

/-- A chat row of `alice` attached to her note. -/
def chatAlice : Chat := mkChat "alice" 1 "user" "hello" 2

/-- A store with `alice`'s note and one chat row for it. -/
def storeAlice : Store := { notes := [noteAlice], chats := [chatAlice] }

/-- A note of `alice` whose emotion was explicitly set to `happy`. -/
def noteHappy : Note :=
  { id := 2, userId := "alice", content := "joy"
    latitude := none, longitude := none, locationName := none
    emotion := "happy", mode := "trace", isPrivate := 0
    aiSummary := none, createdAt := 3 }

/-- A store holding only the `happy` note. -/
def storeHappy : Store := { notes := [noteHappy], chats := [] }

/-- A create body supplying out-of-enum `emotion` and `mode` values. -/
def bodyOffEnum : CreateBody :=
  { content := "x", latitude := none, longitude := none, locationName := none
    emotion := some "excited", mode := some "dream", isPrivate := false }

/-- The empty store. -/
def emptyStore : Store := { notes := [], chats := [] }

/-- The store reached from the empty store by one `POST /api/ai/chat` call of
user `bob` against the nonexistent note id 1. -/
def storeAfterChat : Store :=
  (chatHandler emptyStore true "bob" [{ role := "user", content := "hi" }] 1
    [some "x"] false 0).2

/-- Claim C1 as stated: every note returned by the nearby-notes endpoint
satisfies the non-private filter. -/
def claimC1 : Prop :=
  ∀ (M : MathOps) (store : Store) (latStr lngStr : Option String) (res : List Note),
    nearbyNotesHandler M store latStr lngStr = .ok res →
    ∀ n ∈ res, n.isPrivate = 0

/-- Claim C2 as stated: when no note matches `(id, userId)`, the delete
endpoint answers 404 and leaves the entire store unchanged. -/
def claimC2 : Prop :=
  ∀ (store : Store) (userId : String) (id : Nat),
    (∀ n ∈ store.notes, ¬(n.id = id ∧ n.userId = userId)) →
    deleteNoteHandler store userId id = (.notFound, store)

/-- Claim C3 as stated: when the supplied `noteId` does not reference a note
owned by the caller, the chat endpoint creates no chat row. -/
def claimC3 : Prop :=
  ∀ (store : Store) (apiKeyPresent : Bool) (userId : String) (messages : List Msg)
    (noteId : Nat) (chunks : List (Option String)) (fails : Bool) (now : Nat),
    (∀ n ∈ store.notes, ¬(n.id = noteId ∧ n.userId = userId)) →
    ((chatHandler store apiKeyPresent userId messages noteId chunks fails now).2).chats
      = store.chats

/-- Claim C4 as stated: a supplied emotion outside the enum is stored as the
default `calm`, and a supplied mode outside `trace`/`awaken` as `trace`. -/
def claimC4 : Prop :=
  ∀ (store : Store) (userId : String) (body : CreateBody) (newId now : Nat),
    ((∀ e, body.emotion = some e → e ∉ EMOTIONS) →
      (createNote store userId body newId now).2.emotion = "calm") ∧
    ((∀ m, body.mode = some m → m ∉ ["trace", "awaken"]) →
      (createNote store userId body newId now).2.mode = "trace")

/-- Claim C5 as stated: when the classification response normalizes to an
out-of-enum or empty value, the tagged note keeps the emotion it already
had, whatever that value was. -/
def claimC5 : Prop :=
  ∀ (store : Store) (noteId : Nat) (s : String),
    strToLower (strTrim s) ∉ EMOTIONS →
    ∀ n ∈ store.notes, n.id = noteId →
      ∀ n' ∈ (tagEmotion store noteId (.ok (some s))).notes, n'.id = noteId →
        n'.emotion = n.emotion

/-- Claim C6 as stated: a missing or non-numeric `lat`/`lng` yields the 400
validation error and the proximity query is not executed. -/
def claimC6 : Prop :=
  ∀ (M : MathOps) (store : Store) (latStr lngStr : Option String),
    (latStr = none ∨ lngStr = none ∨
      jsParseFloat (latStr.getD "") = .nan ∨ jsParseFloat (lngStr.getD "") = .nan) →
    nearbyNotesHandler M store latStr lngStr = .badRequest

/-- Claim C7 as stated: every chat call whose stream completes without error
persists exactly one assistant row, whose content is the concatenation of
the relayed chunks. -/
def claimC7 : Prop :=
  ∀ (store : Store) (userId : String) (messages : List Msg) (noteId : Nat)
    (chunks : List (Option String)) (now : Nat) (written : List String) (store' : Store),
    chatHandler store true userId messages noteId chunks false now
      = (.streamed written, store') →
    ∃ c : Chat,
      store'.chats = (persistUserTurn store userId messages noteId now).chats ++ [c] ∧
      c.role = "assistant" ∧ c.content = joinChunks written

/-- Claim C10 as stated: a chats listing for a nonexistent or foreign note
id always yields the empty list. -/
def claimC10 : Prop :=
  ∀ (store : Store) (userId : String) (noteId : Nat),
    (∀ n ∈ store.notes, ¬(n.id = noteId ∧ n.userId = userId)) →
    listChatsHandler store userId noteId = []

/-- The accumulator of the relay loop always equals the concatenation of the
written chunks: the invariant is preserved by every step. -/
theorem relayFold_join (chunks : List (Option String)) :
    ∀ st : StreamState, st.fullResponse = joinChunks st.written →
      (List.foldl relayStep st chunks).fullResponse
        = joinChunks (List.foldl relayStep st chunks).written := by
  induction chunks with
  | nil => intro st h; simpa using h
  | cons c cs ih =>
      intro st h
      simp only [List.foldl_cons]
      apply ih
      cases c with
      | none => simpa [relayStep] using h
      | some content =>
          by_cases hc : content = ""
          · simpa [relayStep, hc] using h
          · simp only [relayStep, if_neg hc]
            rw [h]
            induction st.written with
            | nil => simp [joinChunks]
            | cons x xs ihx => simp [joinChunks, ihx, String.append_assoc]

/-- Accumulator/relay equivalence for a full run of the loop. -/
theorem relayLoop_join (chunks : List (Option String)) :
    (relayLoop chunks).fullResponse = joinChunks (relayLoop chunks).written :=
  relayFold_join chunks { fullResponse := "", written := [] } rfl

/-- C7, counterexample: a stream that completes without error but delivers
no truthy chunk persists no assistant row at all, refuting "exactly one". -/
theorem claimC7_false : ¬ claimC7 := by
  intro h
  obtain ⟨c, hc, -, -⟩ := h emptyStore "bob" [] 1 [] 0 [] emptyStore (by decide)
  simp [emptyStore, persistUserTurn] at hc

/-- C7 (amended): on a stream that completes without error, the accumulated
text is exactly the concatenation of the relayed chunks, and one assistant
row holding it is persisted when that text is non-empty, while no assistant
row is persisted when every delivered chunk was empty or content-free. -/
theorem chat_success_persistence (store : Store) (userId : String)
    (messages : List Msg) (noteId : Nat) (chunks : List (Option String)) (now : Nat) :
    (relayLoop chunks).fullResponse = joinChunks (relayLoop chunks).written ∧
    chatHandler store true userId messages noteId chunks false now =
      (.streamed (relayLoop chunks).written,
        if (relayLoop chunks).fullResponse = ""
        then persistUserTurn store userId messages noteId now
        else { persistUserTurn store userId messages noteId now with
               chats := (persistUserTurn store userId messages noteId now).chats
                 ++ [mkChat userId noteId "assistant" (relayLoop chunks).fullResponse now] }) := by
  refine ⟨relayLoop_join chunks, ?_⟩
  by_cases h : (relayLoop chunks).fullResponse = "" <;> simp [chatHandler, h]

/-- C8: when the upstream stream throws after delivering any number of
chunks, the caller receives the relayed chunks followed by the fixed apology
chunk, and the store keeps only the persisted user turn: no assistant row is
created and the partial accumulated text is discarded. -/
theorem chat_failed_stream_semantics (store : Store) (userId : String)
    (messages : List Msg) (noteId : Nat) (chunks : List (Option String)) (now : Nat) :
    chatHandler store true userId messages noteId chunks true now =
      (.streamed ((relayLoop chunks).written ++ [apologyMessage]),
        persistUserTurn store userId messages noteId now) := by
  simp [chatHandler]

/-- Any chat row present after the `PersistUser` phase was already stored or
carries the caller's id and the supplied note id. -/
theorem persistUserTurn_scope (store : Store) (userId : String) (messages : List Msg)
    (noteId : Nat) (now : Nat) :
    ∀ c ∈ (persistUserTurn store userId messages noteId now).chats,
      c ∈ store.chats ∨ (c.userId = userId ∧ c.noteId = noteId) := by
  intro c hc
  unfold persistUserTurn at hc
  cases hm : messages.getLast? with
  | none => rw [hm] at hc; exact .inl hc
  | some m =>
      rw [hm] at hc
      dsimp only [] at hc
      by_cases hr : m.role = "user"
      · rw [if_pos hr] at hc
        rcases List.mem_append.mp hc with h | h
        · exact .inl h
        · rw [List.mem_singleton] at h
          subst h
          exact .inr ⟨rfl, rfl⟩
      · rw [if_neg hr] at hc
        exact .inl hc

/-- C3, counterexample: against a store with no notes at all, a chat call
with `noteId = 1` still persists the user turn and the assistant turn. -/
theorem claimC3_false : ¬ claimC3 := by
  intro h
  have := h emptyStore true "bob" [{ role := "user", content := "hi" }] 1
    [some "x"] false 0 (by simp [emptyStore])
  exact absurd this (by decide)

/-- C3 (amended): `POST /api/ai/chat` never checks the supplied `noteId`
against the notes table; every chat row it inserts carries the caller's id
and that `noteId` verbatim, whether or not a matching owned note exists. -/
theorem chatHandler_insertion_scope (store : Store) (apiKeyPresent : Bool) (userId : String)
    (messages : List Msg) (noteId : Nat) (chunks : List (Option String))
    (fails : Bool) (now : Nat) :
    ∀ c ∈ ((chatHandler store apiKeyPresent userId messages noteId chunks fails now).2).chats,
      c ∈ store.chats ∨ (c.userId = userId ∧ c.noteId = noteId) := by
  intro c hc
  unfold chatHandler at hc
  by_cases hk : apiKeyPresent = false
  · rw [if_pos hk] at hc; exact .inl hc
  · rw [if_neg hk] at hc
    simp only [] at hc
    by_cases hf : fails
    · rw [if_pos hf] at hc
      exact persistUserTurn_scope store userId messages noteId now c hc
    · rw [if_neg hf] at hc
      by_cases he : (relayLoop chunks).fullResponse = ""
      · rw [if_pos he] at hc
        exact persistUserTurn_scope store userId messages noteId now c hc
      · rw [if_neg he] at hc
        rcases List.mem_append.mp hc with h | h
        · exact persistUserTurn_scope store userId messages noteId now c h
        · rw [List.mem_singleton] at h
          subst h
          exact .inr ⟨rfl, rfl⟩

/-- C3 witness: the user-turn row inserted by a concrete call against the
empty store is within the proved scope. -/
theorem chatHandler_insertion_scope_witness :
    mkChat "bob" 1 "user" "hi" 0 ∈ emptyStore.chats ∨
      ((mkChat "bob" 1 "user" "hi" 0).userId = "bob" ∧
        (mkChat "bob" 1 "user" "hi" 0).noteId = 1) :=
  chatHandler_insertion_scope emptyStore true "bob" [{ role := "user", content := "hi" }] 1
    [some "x"] false 0 (mkChat "bob" 1 "user" "hi" 0) (by decide)

/-- C2, counterexample: user `bob` deletes `alice`'s note id 1; the response
is 404 but `alice`'s chat row for that note has been deleted. -/
theorem claimC2_false : ¬ claimC2 := by
  intro h
  have := h storeAlice "bob" 1 (by decide)
  exact absurd this (by decide)

/-- C2 (amended): when no note matches `(id, userId)` the endpoint answers
404 and leaves the notes table unchanged, but it has already deleted every
chat row whose `noteId` equals `id` — whoever owned it — so the store is not
left unchanged whenever such chat rows existed. -/
theorem deleteNote_notFound_behavior (store : Store) (userId : String) (id : Nat)
    (h : ∀ n ∈ store.notes, ¬(n.id = id ∧ n.userId = userId)) :
    deleteNoteHandler store userId id =
      (.notFound,
        { notes := store.notes,
          chats := store.chats.filter (fun ch => decide (ch.noteId ≠ id)) }) := by
  have hdel : store.notes.filter (fun n => decide (n.id = id ∧ n.userId = userId)) = [] :=
    List.filter_eq_nil_iff.mpr (fun a ha => by simp only [decide_eq_true_eq]; exact h a ha)
  have hrem : store.notes.filter (fun n => decide (¬(n.id = id ∧ n.userId = userId)))
      = store.notes :=
    List.filter_eq_self.mpr (fun a ha => by simp only [decide_eq_true_eq]; exact h a ha)
  unfold deleteNoteHandler
  rw [hdel, hrem]
  rfl

/-- C2 witness: the amended behavior at the concrete store. -/
theorem deleteNote_notFound_behavior_witness :
    deleteNoteHandler storeAlice "bob" 1 =
      (.notFound,
        { notes := storeAlice.notes,
          chats := storeAlice.chats.filter (fun ch => decide (ch.noteId ≠ 1)) }) :=
  deleteNote_notFound_behavior storeAlice "bob" 1 (by decide)

/-- C9: with the AI credential configured, a summary request whose `noteId`
matches no note owned by the caller answers 404 with the store unchanged and
without calling the AI gateway; and when an owned note exists but the AI
call fails, the response is the 500 service error and the store — including
the note's `aiSummary` — is unchanged. -/
theorem summary_guard_semantics (store : Store) (userId : String) (noteId : Nat)
    (ai : AiResult) :
    ((∀ n ∈ store.notes, ¬(n.id = noteId ∧ n.userId = userId)) →
      summaryHandler store true userId noteId ai = (.notFound, store, false)) ∧
    ((∃ n ∈ store.notes, n.id = noteId ∧ n.userId = userId) →
      summaryHandler store true userId noteId .err = (.aiError, store, true)) := by
  constructor
  · intro h
    have hfil : store.notes.filter (fun n => decide (n.id = noteId ∧ n.userId = userId)) = [] :=
      List.filter_eq_nil_iff.mpr (fun a ha => by simp only [decide_eq_true_eq]; exact h a ha)
    unfold summaryHandler
    rw [if_neg (by decide : ¬(true = false)), hfil]
  · rintro ⟨n, hn, hid, hu⟩
    have hmem : n ∈ store.notes.filter (fun n => decide (n.id = noteId ∧ n.userId = userId)) :=
      List.mem_filter.mpr ⟨hn, by simp [hid, hu]⟩
    have hne : store.notes.filter (fun n => decide (n.id = noteId ∧ n.userId = userId)) ≠ [] :=
      fun hnil => by rw [hnil] at hmem; cases hmem
    obtain ⟨a, l, hE⟩ := List.exists_cons_of_ne_nil hne
    unfold summaryHandler
    rw [if_neg (by decide : ¬(true = false)), hE]

/-- C9 witness: both guards at a concrete store holding `alice`'s note. -/
theorem summary_guard_semantics_witness :
    summaryHandler storeAlice true "bob" 1 .err = (.notFound, storeAlice, false) ∧
    summaryHandler storeAlice true "alice" 1 .err = (.aiError, storeAlice, true) :=
  ⟨(summary_guard_semantics storeAlice "bob" 1 .err).1 (by decide),
   (summary_guard_semantics storeAlice "alice" 1 .err).2 ⟨noteAlice, by decide, by decide⟩⟩

/-- C10, counterexample: from the empty store, `bob`'s chat call against the
nonexistent note id 1 persists rows, and the chats listing for that foreign,
nonexistent id then returns them — not the empty list. -/
theorem claimC10_false : ¬ claimC10 := by
  intro h
  have := h storeAfterChat "bob" 1 (by decide)
  exact absurd this (by decide)

/-- C10 (amended): the chats listing never answers 404 and never returns
another user's rows: it returns exactly the caller's chat rows for the given
`noteId`, ascending by creation time, and is empty precisely when the caller
has no chat rows under that `noteId` — which, because chat rows can be
created under a foreign or missing note id, is not implied by the note being
absent or foreign. -/
theorem listChats_scope_semantics (store : Store) (userId : String) (noteId : Nat) :
    (∀ c ∈ listChatsHandler store userId noteId, c.userId = userId ∧ c.noteId = noteId) ∧
    List.Sorted chatAsc (listChatsHandler store userId noteId) ∧
    (listChatsHandler store userId noteId = [] ↔
      ∀ c ∈ store.chats, ¬(c.noteId = noteId ∧ c.userId = userId)) := by
  refine ⟨?_, ?_, ?_⟩
  · intro c hc
    unfold listChatsHandler at hc
    rw [List.mem_insertionSort] at hc
    have h2 := (List.mem_filter.mp hc).2
    simp only [decide_eq_true_eq] at h2
    exact ⟨h2.2, h2.1⟩
  · exact List.sorted_insertionSort chatAsc _
  · unfold listChatsHandler
    constructor
    · intro hnil
      have hperm := List.perm_insertionSort chatAsc
        (store.chats.filter (fun ch => decide (ch.noteId = noteId ∧ ch.userId = userId)))
      rw [hnil] at hperm
      have hfil := hperm.symm.eq_nil
      intro c hc hcontra
      have : c ∈ (List.nil : List Chat) := by
        rw [← hfil]
        exact List.mem_filter.mpr ⟨hc, by simp [hcontra.1, hcontra.2]⟩
      cases this
    · intro h
      have hfil : store.chats.filter (fun ch => decide (ch.noteId = noteId ∧ ch.userId = userId))
          = [] :=
        List.filter_eq_nil_iff.mpr (fun a ha => by simpa using h a ha)
      rw [hfil]
      rfl

/-- C10 witness: `alice`'s own chat row is in scope for her own listing. -/
theorem listChats_scope_semantics_witness :
    chatAlice.userId = "alice" ∧ chatAlice.noteId = 1 :=
  (listChats_scope_semantics storeAlice "alice" 1).1 chatAlice (by decide)

/-- C4, counterexample: creating a note with `emotion: "excited"` and
`mode: "dream"` stores those values verbatim, not the defaults. -/
theorem claimC4_false : ¬ claimC4 := by
  intro h
  obtain ⟨h1, -⟩ := h emptyStore "bob" bodyOffEnum 1 0
  have he := h1 (by
    intro e he
    simp only [bodyOffEnum, Option.some.injEq] at he
    subst he
    decide)
  exact absurd he (by decide)

/-- C4 (amended): the create defaults follow JavaScript falsiness, not enum
validation: `calm`/`trace` are stored exactly when the supplied `emotion`/
`mode` is absent or the empty string, and any non-empty supplied string —
inside or outside the enums — is stored verbatim. -/
theorem createNote_default_semantics (store : Store) (userId : String) (body : CreateBody)
    (newId now : Nat) :
    ((body.emotion = none ∨ body.emotion = some "") →
      (createNote store userId body newId now).2.emotion = "calm") ∧
    (∀ s, body.emotion = some s → s ≠ "" →
      (createNote store userId body newId now).2.emotion = s) ∧
    ((body.mode = none ∨ body.mode = some "") →
      (createNote store userId body newId now).2.mode = "trace") ∧
    (∀ s, body.mode = some s → s ≠ "" →
      (createNote store userId body newId now).2.mode = s) := by
  refine ⟨?_, ?_, ?_, ?_⟩
  · rintro (h | h) <;> simp [createNote, jsOrStr, h]
  · intro s hs hne; simp [createNote, jsOrStr, hs, hne]
  · rintro (h | h) <;> simp [createNote, jsOrStr, h]
  · intro s hs hne; simp [createNote, jsOrStr, hs, hne]

/-- C4 witness: the out-of-enum emotion `excited` is stored verbatim. -/
theorem createNote_default_semantics_witness :
    (createNote emptyStore "bob" bodyOffEnum 1 0).2.emotion = "excited" :=
  (createNote_default_semantics emptyStore "bob" bodyOffEnum 1 0).2.1 "excited" rfl (by decide)

/-- C5, counterexample: a note whose emotion is `happy` is re-tagged to
`calm` — not left at `happy` — when the classification answer normalizes to
the out-of-enum word `banana`. -/
theorem claimC5_false : ¬ claimC5 := by
  intro h
  have := h storeHappy 2 "banana" (by decide) noteHappy (by decide) rfl
    { noteHappy with emotion := "calm" } (by decide) rfl
  exact absurd this (by decide)

/-- C5 (amended): when the classification answer normalizes to an
out-of-enum or empty value, the tagging task overwrites the note's emotion
with the global default `calm` — so the pre-tagging value survives only if
it was already `calm`; the pre-tagging value is kept untouched exactly when
the AI call throws, in which case the whole store is unchanged. -/
theorem tagEmotion_failure_semantics (store : Store) (noteId : Nat) (s : String)
    (h : strToLower (strTrim s) ∉ EMOTIONS) :
    tagEmotion store noteId (.ok (some s)) =
      { store with
        notes := store.notes.map
          (fun n => if n.id = noteId then { n with emotion := "calm" } else n) } ∧
    tagEmotion store noteId .err = store := by
  constructor
  · unfold tagEmotion
    dsimp only []
    by_cases he : strToLower (strTrim s) = ""
    · rw [if_pos he, if_pos (show ("calm" ∈ EMOTIONS) by decide)]
    · rw [if_neg he, if_neg h]
  · rfl

/-- C5 witness: the amended behavior at the concrete `happy` store. -/
theorem tagEmotion_failure_semantics_witness :
    (tagEmotion storeHappy 2 (.ok (some "banana")) =
      { storeHappy with
        notes := storeHappy.notes.map
          (fun n => if n.id = 2 then { n with emotion := "calm" } else n) }) ∧
    tagEmotion storeHappy 2 .err = storeHappy :=
  tagEmotion_failure_semantics storeHappy 2 "banana" (by decide)

/-- A query-string parameter is JS-falsy exactly when absent or empty. -/
theorem jsFalsyStr_iff (o : Option String) :
    jsFalsyStr o = true ↔ (o = none ∨ o = some "") := by
  cases o with
  | none => simp [jsFalsyStr]
  | some s => simp [jsFalsyStr]

/-- Subtraction from `NaN` is `NaN`. -/
theorem jsSub_nan (x : JsNum) : jsSub .nan x = .nan := by
  cases x <;> rfl

/-- A SQL range condition with a `NaN` bound matches no row. -/
theorem sqlGe_nan (col : Option Q) : sqlGe col .nan = false := by
  cases col <;> rfl

/-- C1, counterexample: a private note (`isPrivate = 1`) lying exactly at
the query point is returned by the nearby-notes endpoint — the handler has
no privacy condition. -/
theorem claimC1_false : ¬ claimC1 := by
  intro h
  have := h mathSpot cexStore (some "1") (some "1") [cexNote] (by decide) cexNote (by decide)
  exact absurd this (by decide)

/-- C1 (amended): every successful nearby-notes response is a sublist of the
stored notes containing only notes that pass the exact 1 km haversine filter
with a valid location, ordered most recent first, and capped by the 100-row
candidate fetch — but with no privacy filter: `isPrivate` does not constrain
membership. -/
theorem nearby_notes_contract (M : MathOps) (store : Store) (latStr lngStr : Option String)
    (res : List Note) (h : nearbyNotesHandler M store latStr lngStr = .ok res) :
    res.length ≤ 100 ∧ List.Sorted noteRecency res ∧
    ∀ n ∈ res, n ∈ store.notes ∧
      preciseKeep M (jsParseFloat (latStr.getD "")) (jsParseFloat (lngStr.getD "")) n = true := by
  unfold nearbyNotesHandler at h
  by_cases hb : (jsFalsyStr latStr || jsFalsyStr lngStr) = true
  · rw [if_pos hb] at h
    exact absurd h (by simp)
  · rw [if_neg hb] at h
    injection h with h
    subst h
    refine ⟨?_, ?_, ?_⟩
    · exact le_trans (List.length_filter_le _ _)
        (by unfold nearbyCandidates; exact List.length_take_le _ _)
    · refine List.Pairwise.sublist (List.filter_sublist _) ?_
      unfold nearbyCandidates
      exact List.Pairwise.sublist (List.take_sublist _ _)
        (List.sorted_insertionSort noteRecency _)
    · intro n hn
      have h2 := List.mem_filter.mp hn
      refine ⟨?_, h2.2⟩
      have h3 := h2.1
      unfold nearbyCandidates at h3
      have h4 := List.Sublist.mem h3 (List.take_sublist _ _)
      rw [List.mem_insertionSort] at h4
      exact (List.mem_filter.mp h4).1

/-- C1 witness: the amended contract evaluated at the concrete run that
returns the private note. -/
theorem nearby_notes_contract_witness :
    [cexNote].length ≤ 100 ∧ List.Sorted noteRecency [cexNote] ∧
    ∀ n ∈ [cexNote], n ∈ cexStore.notes ∧
      preciseKeep mathSpot (jsParseFloat ((some "1" : Option String).getD ""))
        (jsParseFloat ((some "1" : Option String).getD "")) n = true :=
  nearby_notes_contract mathSpot cexStore (some "1") (some "1") [cexNote] (by decide)

/-- C6, counterexample: with a non-numeric `lat` the endpoint does not
return the 400 validation error — it runs the query and answers 200. -/
theorem claimC6_false : ¬ claimC6 := by
  intro h
  have := h mathSpot cexStore (some "abc") (some "1")
    (.inr (.inr (.inl (by decide))))
  exact absurd this (by decide)

/-- C6 (amended): the 400 validation error is returned exactly when `lat` or
`lng` is missing or empty; a supplied non-numeric value is not rejected: it
parses to `NaN`, the proximity query is executed, and — every bounding-box
comparison against a `NaN` bound failing — the response is a 200 with the
empty list. -/
theorem nearby_validation_semantics (M : MathOps) (store : Store)
    (latStr lngStr : Option String) :
    (nearbyNotesHandler M store latStr lngStr = .badRequest ↔
      (latStr = none ∨ latStr = some "" ∨ lngStr = none ∨ lngStr = some "")) ∧
    ((jsFalsyStr latStr || jsFalsyStr lngStr) = false →
      (jsParseFloat (latStr.getD "") = .nan ∨ jsParseFloat (lngStr.getD "") = .nan) →
      nearbyNotesHandler M store latStr lngStr = .ok []) := by
  have hiff : (jsFalsyStr latStr || jsFalsyStr lngStr) = true ↔
      (latStr = none ∨ latStr = some "" ∨ lngStr = none ∨ lngStr = some "") := by
    rw [Bool.or_eq_true, jsFalsyStr_iff, jsFalsyStr_iff]
    tauto
  constructor
  · unfold nearbyNotesHandler
    by_cases hb : (jsFalsyStr latStr || jsFalsyStr lngStr) = true
    · rw [if_pos hb]
      exact iff_of_true rfl (hiff.mp hb)
    · rw [if_neg hb]
      exact iff_of_false (by simp) (fun hr => hb (hiff.mpr hr))
  · intro hb hnan
    unfold nearbyNotesHandler
    rw [if_neg (by simp [hb])]
    have hcand : nearbyCandidates M store (jsParseFloat (latStr.getD ""))
        (jsParseFloat (lngStr.getD "")) = [] := by
      unfold nearbyCandidates
      have hbox : store.notes.filter
          (boxPred (jsParseFloat (latStr.getD "")) (jsParseFloat (lngStr.getD ""))
            (.num { num := 1, den := 100 })
            (lngDeltaOf M (jsParseFloat (latStr.getD "")))) = [] := by
        apply List.filter_eq_nil_iff.mpr
        intro n hn
        rcases hnan with hlat | hlng
        · rw [hlat]
          simp [boxPred, jsSub_nan, sqlGe_nan]
        · rw [hlng]
          simp [boxPred, jsSub_nan, sqlGe_nan]
      rw [hbox]
      rfl
    rw [hcand]
    rfl

/-- C6 witness: the amended behavior at the concrete non-numeric query. -/
theorem nearby_validation_semantics_witness :
    nearbyNotesHandler mathSpot cexStore (some "abc") (some "1") = .ok [] :=
  (nearby_validation_semantics mathSpot cexStore (some "abc") (some "1")).2 (by decide)
    (.inl (by decide))
